import Mathlib

/-!
Shallow embedding of the conversational lesson-plan backend
(CurioCloudBackendN): the teaching-service session state machine, the
dynamic-question service and the AI-service response cleaning, together
with theorems settling the specification claims.

Python strings are modelled as Lean `String`; Python dicts (which preserve
insertion order) as association lists `List (String × α)`; outbound LLM /
web-search calls as oracle parameters (the parsed provider response is an
input); raised exceptions as `Except`-style error results.
-/

namespace CurioCloud

/-! ## Python string primitives -/

/-- Characters stripped by Python's `str.strip()` (ASCII whitespace). -/
def isPySpace (c : Char) : Bool :=
  c = ' ' || c = '\t' || c = '\n' || c = '\r' || c = '\x0b' || c = '\x0c'

/-- Left part of `str.strip()` on the underlying character list. -/
def lstripData (l : List Char) : List Char := l.dropWhile isPySpace

/-- Right part of `str.strip()` on the underlying character list. -/
def rstripData (l : List Char) : List Char := (l.reverse.dropWhile isPySpace).reverse

/-- Embedding of Python `s.strip()`. -/
def pyStrip (s : String) : String := ⟨rstripData (lstripData s.data)⟩

/-- Embedding of Python `s.startswith(p)`. -/
def pyStartsWith (s p : String) : Bool := p.data.isPrefixOf s.data

/-- Embedding of Python `s.endswith(p)`. -/
def pyEndsWith (s p : String) : Bool := p.data.isSuffixOf s.data

/-- Substring test on character lists: does `n` occur contiguously in `h`? -/
def hasSubstring (n : List Char) : List Char → Bool
  | [] => n.isEmpty
  | c :: t => n.isPrefixOf (c :: t) || hasSubstring n t

/-- Embedding of Python `sub in s` (substring test). -/
def pyContains (s sub : String) : Bool := hasSubstring sub.data s.data

/-- Embedding of Python `s.lower()` (identity on non-cased CJK characters). -/
def strLower (s : String) : String := ⟨s.data.map Char.toLower⟩

/-- Embedding of Python `s[n:]`. -/
def strDrop (s : String) (n : Nat) : String := ⟨s.data.drop n⟩

/-- Embedding of Python `s[:n]` for `0 ≤ n`. -/
def strTake (s : String) (n : Nat) : String := ⟨s.data.take n⟩

/-! ## Python dict primitives (insertion-ordered association lists) -/

/-- Embedding of `d.get(k)` / `d[k]` lookup. -/
def dictGet? {α : Type} : List (String × α) → String → Option α
  | [], _ => none
  | (k', v) :: rest, k => if k' = k then some v else dictGet? rest k

/-- Embedding of `d[k] = v`: update in place if the key exists, else append
(Python dicts preserve insertion order). -/
def dictSet {α : Type} : List (String × α) → String → α → List (String × α)
  | [], k, v => [(k, v)]
  | (k', v') :: rest, k, v =>
      if k' = k then (k, v) :: rest else (k', v') :: dictSet rest k v

/-- Embedding of the Python truth test `k in d and d[k]` for string-valued
dicts (a present, non-empty value). -/
def dictHasTruthy (d : List (String × String)) (k : String) : Bool :=
  match dictGet? d k with
  | some v => v ≠ ""
  | none => false

/-- Values of the dynamically-typed JSON objects the LLM returns. -/
inductive PyVal : Type where
  | str (s : String)
  | bool (b : Bool)
  | num (n : Int)
  | list (xs : List PyVal)

/-! ## DynamicQuestionService (`app/services/dynamic_question_service.py`) -/

/-- Required keys checked by `DynamicQuestionService._validate_question_format`
(source lines 142-146). Note `priority` is not among them. -/
def required_keys : List String :=
  ["question", "question_type", "key_to_save", "options", "allows_free_text"]

/-- Embedding of `DynamicQuestionService._validate_question_format`: every
required key must be present, and `options` (defaulting to `[]`) must be a
list of length 4..6. -/
def validate_question_format (question_data : List (String × PyVal)) : Bool :=
  required_keys.all (fun k => (dictGet? question_data k).isSome) &&
    (match (dictGet? question_data "options").getD (.list []) with
     | .list options => decide (4 ≤ options.length) && decide (options.length ≤ 6)
     | _ => false)

/-- Embedding of `DynamicQuestionService.generate_next_question`.  The outbound
LLM call (`generate_json_response` followed by `clean_and_parse_json`) is an
oracle input `llm_response`: `some qd` when the provider returned content that
parsed to the JSON object `qd`, `none` when the call failed or did not parse.
The hard ceiling `question_count >= max_questions` returns `none` before the
oracle is consulted. -/
def generate_next_question (llm_response : Option (List (String × PyVal)))
    (_collected_data : List (String × String))
    (question_count : Nat) (max_questions : Nat) : Option (List (String × PyVal)) :=
  if question_count ≥ max_questions then none
  else
    match llm_response with
    | some question_data =>
        if validate_question_format question_data then
          some (dictSet question_data "step_key"
            (.str ("dynamic_question_" ++ toString (question_count + 1))))
        else none
    | none => none

/-- Decision record returned by `should_continue_questioning`. -/
structure ContinueDecision where
  should_continue : Bool
  reason : String
  confidence : ℚ
deriving DecidableEq, Repr

/-- Fuelled floor of the base-2 logarithm (0 for inputs below 2). -/
def log2floor (fuel n : Nat) : Nat :=
  match fuel with
  | 0 => 0
  | fuel' + 1 => if n ≤ 1 then 0 else log2floor fuel' (n / 2) + 1

/-- Floor of the base-2 logarithm of a positive natural number. -/
def natLog2 (n : Nat) : Nat := log2floor n n

/-- Exact-rational model of IEEE-754 binary64 rounding (round to nearest,
ties to even) for a positive rational in the normal range — the semantics of
the Python `float` values this service computes with.  Negative inputs do
not occur here; `floatOfRat 0 = 0`. -/
def floatOfRat (q : ℚ) : ℚ :=
  if 0 < q then
    let a := q.num.toNat
    let b := q.den
    let la := natLog2 a
    let lb := natLog2 b
    let e : ℤ := if b * 2 ^ la ≤ a * 2 ^ lb then (la : ℤ) - lb else (la : ℤ) - lb - 1
    let scaled := q * (2 : ℚ) ^ (52 - e)
    let m := ⌊scaled⌋
    let r := if 2 * scaled < 2 * m + 1 then m
             else if 2 * m + 1 < 2 * scaled then m + 1
             else if m % 2 = 0 then m else m + 1
    (r : ℚ) * (2 : ℚ) ^ (e - 52)
  else 0

/-- Python float addition: exact sum, rounded to binary64. -/
def fladd (x y : ℚ) : ℚ := floatOfRat (x + y)

/-- Weight table of `DynamicQuestionService._calculate_data_completeness`
(source lines 221-229).  The literals `0.2` and `0.1` are Python floats:
the binary64 values nearest those decimals. -/
def key_weights : List (String × ℚ) :=
  [("subject", floatOfRat 0.2), ("grade", floatOfRat 0.2), ("topic", floatOfRat 0.2),
   ("duration_minutes", floatOfRat 0.1), ("teaching_method", floatOfRat 0.1),
   ("student_level", floatOfRat 0.1), ("learning_objectives", floatOfRat 0.1)]

/-- Embedding of `DynamicQuestionService._calculate_data_completeness`:
accumulate (in Python float arithmetic) the weight of every key present with
a truthy value, capped at 1. -/
def calculate_data_completeness (collected_data : List (String × String)) : ℚ :=
  min (key_weights.foldl
        (fun acc kw => if dictHasTruthy collected_data kw.1 then fladd acc kw.2 else acc) 0) 1

/-- Embedding of `DynamicQuestionService.should_continue_questioning`
(source lines 155-208): minimum-count tier, maximum-count tier, then the
completeness-threshold tier. -/
def should_continue_questioning (collected_data : List (String × String))
    (question_count min_questions max_questions : Nat) : ContinueDecision :=
  if question_count < min_questions then
    ⟨true, "未达到最少问题数量", 1⟩
  else if question_count ≥ max_questions then
    ⟨false, "已达到最大问题数量", 1⟩
  else
    let completeness_score := calculate_data_completeness collected_data
    if completeness_score ≥ floatOfRat 0.8 then
      ⟨false, "数据收集已较为完整", completeness_score⟩
    else if completeness_score ≥ floatOfRat 0.6 then
      ⟨true, "数据收集基本完整，可再询问1-2个问题", completeness_score⟩
    else
      ⟨true, "数据收集不够完整，需要继续询问", completeness_score⟩

/-! ## ConversationScript (`app/conversation_flow.py`) -/

/-- One fixed-script step of `CONVERSATION_FLOW['steps']`. -/
structure StepConfig where
  question : String
  key_to_save : String
  options : List String
  allows_free_text : Bool
  next_step : String
deriving DecidableEq, Repr

/-- Embedding of `CONVERSATION_FLOW['start_step']`. -/
def CONVERSATION_FLOW_start_step : String := "ask_subject"

/-- Embedding of the `CONVERSATION_FLOW['steps']` table. -/
def CONVERSATION_FLOW_steps : List (String × StepConfig) :=
  [("ask_subject",
    { question := "您好！我们来一起准备一堂新课。首先，这堂课是关于哪个学科的？",
      key_to_save := "subject",
      options := ["语文", "数学", "英语", "物理", "历史", "生物"],
      allows_free_text := true,
      next_step := "ask_grade" }),
   ("ask_grade",
    { question := "好的，那么这堂课是针对哪个年级的学生？",
      key_to_save := "grade",
      options := ["小学一年级", "小学二年级", "小学三年级", "小学四年级", "小学五年级", "小学六年级",
                  "初中一年级", "初中二年级", "初中三年级",
                  "高中一年级", "高中二年级", "高中三年级"],
      allows_free_text := true,
      next_step := "ask_topic" }),
   ("ask_topic",
    { question := "请告诉我这堂课的具体课题或主题是什么？",
      key_to_save := "topic",
      options := [],
      allows_free_text := true,
      next_step := "ask_duration" }),
   ("ask_duration",
    { question := "这堂课预计需要多长时间？（单位：分钟）",
      key_to_save := "duration_minutes",
      options := ["30", "40", "45", "50", "60", "90"],
      allows_free_text := true,
      next_step := "finalize" })]

/-- Embedding of `get_step_config`. -/
def get_step_config (step_key : String) : Option StepConfig :=
  dictGet? CONVERSATION_FLOW_steps step_key

/-- Embedding of `get_next_step` (every configured step has a `next_step`). -/
def get_next_step (current_step : String) : Option String :=
  (get_step_config current_step).map StepConfig.next_step

/-- Embedding of `is_final_step`. -/
def is_final_step (step_key : String) : Bool :=
  get_next_step step_key = some "finalize"

/-! ## Error kinds

Raised Python exceptions modelled as values: `invalidState` is the
`ValueError` for a session not IN_PROGRESS, `invalidStep` the `ValueError`
for an unknown fixed step, `generationFailed` the `ValueError` raised when
lesson-plan generation returns null, `unboundLocal` the `UnboundLocalError`
from the subject-extraction scoping fault, and `attributeError` the
`AttributeError` from a missing attribute such as a nonexistent enum member. -/
inductive PyError : Type where
  | invalidState
  | invalidStep
  | generationFailed
  | unboundLocal
  | attributeError
deriving DecidableEq, Repr

/-! ## Subject / grade extraction heuristics
(`TeachingService._extract_subject_from_collected_data`, second definition —
the one Python keeps — and `TeachingService._extract_grade_from_collected_data`,
`app/services/teaching_service.py` lines 192-336) -/

/-- Table `direct_subjects` (source lines 210-235).  NOTE: in the source this
local is bound only inside the `if first_answer:` branch. -/
def direct_subjects : List (String × List String) :=
  [("语文", ["语文", "国语", "汉语", "文学"]),
   ("数学", ["数学", "算术", "代数", "几何"]),
   ("英语", ["英语", "英文", "English"]),
   ("物理", ["物理", "物理学"]),
   ("化学", ["化学", "化学科"]),
   ("生物", ["生物", "生物学"]),
   ("历史", ["历史", "历史课"]),
   ("地理", ["地理", "地理学"]),
   ("政治", ["政治", "思想政治", "政治课"]),
   ("音乐", ["音乐", "音乐课"]),
   ("美术", ["美术", "美术课", "绘画"]),
   ("体育", ["体育", "体育课", "体操"]),
   ("信息技术", ["信息技术", "计算机", "编程", "信息科技"]),
   ("科学", ["科学", "自然科学"]),
   ("道德与法治", ["道德与法治", "品德", "法治"]),
   ("劳动", ["劳动", "劳动技术"]),
   ("综合实践", ["综合实践", "实践活动"]),
   ("Java", ["Java", "JAVA", "java"]),
   ("Python", ["Python", "PYTHON", "python"]),
   ("C++", ["C++", "CPP", "cpp", "c++"]),
   ("C语言", ["C语言", "C语言编程"]),
   ("JavaScript", ["JavaScript", "JS", "javascript", "js"]),
   ("数据结构与算法", ["数据结构", "算法", "数据结构与算法"])]

/-- Table `subject_keywords` (source lines 243-257), also bound only inside the
`if first_answer:` branch. -/
def subject_keywords : List (String × List String) :=
  [("数学", ["数学", "算术", "代数", "几何", "微积分", "统计", "计算", "方程"]),
   ("语文", ["语文", "中文", "文学", "作文", "阅读", "古诗", "诗歌", "散文", "写作"]),
   ("英语", ["英语", "English", "英文", "单词", "语法", "听力", "口语", "写作", "外语"]),
   ("物理", ["物理", "力学", "电学", "光学", "热学", "声学", "运动", "能量", "电磁"]),
   ("化学", ["化学", "元素", "分子", "化合物", "反应", "实验", "原子", "离子", "有机"]),
   ("生物", ["生物", "细胞", "遗传", "进化", "生态", "植物", "动物", "基因", "微生物"]),
   ("历史", ["历史", "古代", "近代", "现代", "朝代", "战争", "文明", "文化", "考古"]),
   ("地理", ["地理", "地图", "气候", "地形", "国家", "城市", "河流", "山脉", "环境"]),
   ("政治", ["政治", "法律", "宪法", "政府", "公民", "权利", "民主", "法制", "社会"]),
   ("音乐", ["音乐", "歌曲", "乐器", "节拍", "音符", "合唱", "旋律", "节奏", "乐理"]),
   ("美术", ["美术", "绘画", "素描", "色彩", "艺术", "创作", "设计", "雕塑", "美学"]),
   ("体育", ["体育", "运动", "健身", "球类", "跑步", "游泳", "锻炼", "比赛", "体能"]),
   ("信息技术", ["计算机", "编程", "软件", "网络", "信息技术", "IT", "代码", "程序", "数据库"])]

/-- First `direct_subjects` entry one of whose keywords, lowercased, occurs in
`txt` (the loop at source lines 238-240 and 268-270; `txt` is already
lowercased by the caller). -/
def subjectDirectMatch (txt : String) : Option String :=
  direct_subjects.findSome? fun p =>
    if p.2.any (fun kw => pyContains txt (strLower kw)) then some p.1 else none

/-- First `subject_keywords` entry one of whose keywords occurs verbatim in
`txt` (the loop at source lines 259-261 and 272-274; keywords are not
lowercased here, exactly as in the source). -/
def subjectKeywordMatch (txt : String) : Option String :=
  subject_keywords.findSome? fun p =>
    if p.2.any (fun kw => pyContains txt kw) then some p.1 else none

/-- Does a collected-data entry qualify for the fallback scan over non-first
answers (source line 265)? -/
def fallbackEntryQualifies (kv : String × String) : Bool :=
  pyStartsWith kv.1 "question_" && pyEndsWith kv.1 "_answer" &&
    kv.2 ≠ "" && kv.1 ≠ "question_1_answer"

/-- Fallback scan over the remaining answers (source lines 264-274), usable
only when `first_answer` was truthy so the two tables are in scope. -/
def subjectFallbackScan (collected_data : List (String × String)) : String :=
  (collected_data.findSome? fun kv =>
    if fallbackEntryQualifies kv then
      let value_lower := strLower kv.2
      match subjectDirectMatch value_lower with
      | some subject => some subject
      | none => subjectKeywordMatch value_lower
    else none).getD ""

/-- Embedding of the operative (second) definition of
`TeachingService._extract_subject_from_collected_data` (source lines 192-276).
When `first_answer` is falsy, the locals `direct_subjects` and
`subject_keywords` are never bound, so the first qualifying entry of the
fallback loop raises `UnboundLocalError`, modelled as `.error .unboundLocal`. -/
def extract_subject_from_collected_data (collected_data : List (String × String)) :
    Except PyError String :=
  if dictHasTruthy collected_data "subject" then
    .ok ((dictGet? collected_data "subject").getD "")
  else
    let first_answer := (dictGet? collected_data "question_1_answer").getD ""
    if first_answer ≠ "" then
      let first_answer_lower := strLower first_answer
      match subjectDirectMatch first_answer_lower with
      | some subject => .ok subject
      | none =>
        match subjectKeywordMatch first_answer_lower with
        | some subject => .ok subject
        | none => .ok (subjectFallbackScan collected_data)
    else
      if collected_data.any fallbackEntryQualifies then .error .unboundLocal
      else .ok ""

/-- Table `grade_patterns` (source lines 296-329), in source order: first
matching pattern wins. -/
def grade_patterns : List (String × String) :=
  [("初中一年级", "初中一年级"), ("初中二年级", "初中二年级"), ("初中三年级", "初中三年级"),
   ("初一", "初中一年级"), ("初二", "初中二年级"), ("初三", "初中三年级"),
   ("七年级", "初中一年级"), ("八年级", "初中二年级"), ("九年级", "初中三年级"),
   ("高中一年级", "高中一年级"), ("高中二年级", "高中二年级"), ("高中三年级", "高中三年级"),
   ("高一", "高中一年级"), ("高二", "高中二年级"), ("高三", "高中三年级"),
   ("小学一年级", "小学一年级"), ("小学二年级", "小学二年级"), ("小学三年级", "小学三年级"),
   ("小学四年级", "小学四年级"), ("小学五年级", "小学五年级"), ("小学六年级", "小学六年级"),
   ("大学一年级", "大学一年级"), ("大学二年级", "大学二年级"), ("大学三年级", "大学三年级"),
   ("大学四年级", "大学四年级"),
   ("大一", "大学一年级"), ("大二", "大学二年级"), ("大三", "大学三年级"), ("大四", "大学四年级"),
   ("研究生一年级", "研究生一年级"), ("研究生二年级", "研究生二年级"), ("研究生三年级", "研究生三年级"),
   ("硕士一年级", "研究生一年级"), ("硕士二年级", "研究生二年级"), ("硕士三年级", "研究生三年级"),
   ("博士一年级", "博士一年级"), ("博士二年级", "博士二年级"), ("博士三年级", "博士三年级"),
   ("一年级", "小学一年级"), ("二年级", "小学二年级"), ("三年级", "小学三年级"),
   ("四年级", "小学四年级"), ("五年级", "小学五年级"), ("六年级", "小学六年级"),
   ("初中", "初中"), ("高中", "高中"), ("小学", "小学"), ("大学", "大学"), ("研究生", "研究生"),
   ("成人", "成人"), ("成人教育", "成人"), ("职业培训", "成人"),
   ("本科生", "大学"), ("本科", "大学"), ("专科生", "大学"), ("专科", "大学"),
   ("硕士研究生", "研究生"), ("博士研究生", "博士"),
   ("初学", "入门"), ("入门", "入门"), ("基础", "入门"), ("初级", "入门"),
   ("中级", "中级"), ("高级", "高级"), ("专业", "高级"),
   ("幼儿园", "幼儿园"), ("学前班", "学前班"), ("托儿所", "幼儿园")]

/-- Does a collected-data entry qualify for the grade scan (source line 294)? -/
def gradeEntryQualifies (kv : String × String) : Bool :=
  pyStartsWith kv.1 "question_" && pyEndsWith kv.1 "_answer" && kv.2 ≠ ""

/-- Embedding of `TeachingService._extract_grade_from_collected_data`
(source lines 278-336): direct `grade` field, else first pattern match over
the qualifying answers in order, else the empty string. -/
def extract_grade_from_collected_data (collected_data : List (String × String)) : String :=
  if dictHasTruthy collected_data "grade" then
    (dictGet? collected_data "grade").getD ""
  else
    (collected_data.findSome? fun kv =>
      if gradeEntryQualifies kv then
        grade_patterns.findSome? fun p =>
          if pyContains (strLower kv.2) p.1 then some p.2 else none
      else none).getD ""

/-! ## AIService response cleaning (`app/services/ai_service.py` lines 60-77) -/

/-- Fence-cleaning step `if content.startswith('```json'): content = content[7:]`
(source line 66-67). -/
def cleanStep1 (c : String) : String :=
  if pyStartsWith c "```json" then strDrop c 7 else c

/-- Fence-cleaning step `if content.startswith('```'): content = content[3:]`
(source line 68-69). -/
def cleanStep2 (c : String) : String :=
  if pyStartsWith c "```" then strDrop c 3 else c

/-- Fence-cleaning step `if content.endswith('```'): content = content[:-3]`
(source line 70-71). -/
def cleanStep3 (c : String) : String :=
  if pyEndsWith c "```" then strTake c (c.data.length - 3) else c

/-- Embedding of the cleaning pipeline of `AIService._clean_and_parse_json`
(source lines 64-72): strip, drop a leading ```json fence tag or a bare
leading ``` fence, drop a trailing ``` fence, strip again. -/
def cleanContent (content : String) : String :=
  pyStrip (cleanStep3 (cleanStep2 (cleanStep1 (pyStrip content))))

/-- Embedding of `AIService._clean_and_parse_json`.  `json.loads` is the
oracle `parse`; the `except json.JSONDecodeError` clause turns a parse
failure into `None` (string slicing itself never raises). -/
def clean_and_parse_json {J : Type} (parse : String → Except Unit J)
    (content : String) : Option J :=
  match parse (cleanContent content) with
  | .ok v => some v
  | .error _ => none

/-! ## Session data model (`app/models/lesson_creation_session.py`) -/

/-- Embedding of the `SessionStatus` enum: exactly four members. -/
inductive SessionStatus : Type where
  | in_progress
  | processing
  | completed
  | failed
deriving DecidableEq, Repr

/-- Python attribute access `SessionStatus.<name>`: returns the member for
the four defined names and `none` (an `AttributeError`) for any other name. -/
def sessionStatusMember (attr : String) : Option SessionStatus :=
  if attr = "in_progress" then some .in_progress
  else if attr = "processing" then some .processing
  else if attr = "completed" then some .completed
  else if attr = "failed" then some .failed
  else none

/-- One record of `session.history`.  Dynamic-mode entries carry a
`question_count`; fixed-mode entries do not. -/
structure HistoryEntry where
  step : String
  question : String
  answer : String
  question_count : Option Nat
deriving DecidableEq, Repr

/-- Embedding of a `LessonCreationSession` row. -/
structure SessionState where
  session_id : String
  user_id : Nat
  status : SessionStatus
  current_step : String
  collected_data : List (String × String)
  history : List HistoryEntry
  ai_questions_asked : Nat
  max_ai_questions : Nat
  lesson_plan_id : Option Nat
deriving DecidableEq, Repr

/-- One activity of a generated lesson-plan draft. -/
structure ActivityData where
  order : Nat
  name : String
  description : String
  duration : Nat
deriving DecidableEq, Repr

/-- Validated draft returned by `AIService.generate_lesson_plan` (the oracle
value when the call succeeds): the keys `_validate_lesson_plan` requires. -/
structure LessonPlanDraft where
  title : String
  learning_objectives : List String
  teaching_outline : String
  activities : List ActivityData
  web_search_info : Option String
deriving DecidableEq, Repr

/-- A persisted `LessonPlan` row together with its activity rows, as created
by `TeachingService._save_lesson_plan`. -/
structure LessonPlanRow where
  user_id : Nat
  title : String
  subject : String
  grade : String
  teaching_objective : String
  teaching_outline : String
  web_search_info : Option String
  activities : List ActivityData
deriving DecidableEq, Repr

/-- Modelled from the spec: the gateway methods
`AIService.generate_json_response` and `AIService.clean_and_parse_json`
invoked by `DynamicQuestionService.generate_next_question` are absent from
src/ (only their caller appears; the service defines `_make_api_call` and
`_clean_and_parse_json`); per §4.2 the chat call returns the provider
response or null after retries, and cleaning/parsing yields the decoded
JSON value or null.  Their composition is `next_question_response`: the
parsed next-question object, or null on provider failure or unparseable
output.  `lesson_plan_response` is the outcome of the (network-bound)
`AIService.generate_lesson_plan`: a validated draft or null. -/
structure LLMOracle where
  next_question_response : Option (List (String × PyVal))
  lesson_plan_response : Option LessonPlanDraft

/-- Observable outcome of one `process_answer` call: a question card was
returned, the final lesson plan was returned, or an exception surfaced
(HTTP 500 after rollback of any uncommitted changes). -/
inductive AnswerOutcome : Type where
  | question (card : List (String × PyVal))
  | completed
  | failure (e : PyError)

/-- Result of one `answer()` turn: the session row as durably committed, the
`LessonPlan` rows created during the turn, and the outcome. -/
abbrev StepResult := SessionState × List LessonPlanRow × AnswerOutcome

/-! ## TeachingService (`app/services/teaching_service.py`) -/

/-- Embedding of `TeachingService._save_lesson_plan` (source lines 356-402):
derive subject (which can raise, see `extract_subject_from_collected_data`)
and grade, then build the plan row plus its activity rows. -/
def save_lesson_plan (user_id : Nat) (collected_data : List (String × String))
    (lesson_plan_data : LessonPlanDraft) : Except PyError LessonPlanRow :=
  match extract_subject_from_collected_data collected_data with
  | .error e => .error e
  | .ok subject =>
      let grade := extract_grade_from_collected_data collected_data
      .ok { user_id := user_id,
            title := lesson_plan_data.title,
            subject := subject,
            grade := grade,
            teaching_objective := String.intercalate "\n" lesson_plan_data.learning_objectives,
            teaching_outline := lesson_plan_data.teaching_outline,
            web_search_info := lesson_plan_data.web_search_info,
            activities := lesson_plan_data.activities }

/-- Embedding of `TeachingService._finalize_lesson_plan` (source lines
577-609): set `status=processing` and commit, call the generation oracle; on
a draft, persist the plan and set `status=completed` and `lesson_plan_id`
(the database-assigned id abstracted as 1); on save failure the exception
propagates and the committed state keeps `status=processing`; on a null
draft set `status=failed` and raise (GENERATION_FAILED). -/
def finalize_lesson_plan (o : LLMOracle) (session : SessionState) : StepResult :=
  let s1 := { session with status := .processing }
  match o.lesson_plan_response with
  | some lesson_plan_data =>
      match save_lesson_plan s1.user_id s1.collected_data lesson_plan_data with
      | .error e => (s1, [], .failure e)
      | .ok lesson_plan =>
          ({ s1 with status := .completed, lesson_plan_id := some 1 },
           [lesson_plan], .completed)
  | none => ({ s1 with status := .failed }, [], .failure .generationFailed)

/-- Embedding of `TeachingService._get_question_card` (source lines 338-354).
The `none` case raises in Python; callers only pass configured step keys. -/
def get_question_card (step_key : String) : List (String × PyVal) :=
  match get_step_config step_key with
  | some config =>
      [("step_key", .str step_key),
       ("question", .str config.question),
       ("options", .list (config.options.map PyVal.str)),
       ("allows_free_text", .bool config.allows_free_text)]
  | none => []

/-- Embedding of `TeachingService._get_current_question_for_history` (source
lines 611-628).  For a dynamic step: the question of the last history entry,
or the hardcoded greeting for the very first turn.  The fixed-step branch
reads the step config (its `none` case raises in Python but the function is
only invoked from the dynamic branch, where the step key is dynamic). -/
def get_current_question_for_history (session : SessionState) : String :=
  if pyStartsWith session.current_step "dynamic_question_" then
    match session.history.getLast? with
    | some h => h.question
    | none => "您好！我们来一起设计一堂精彩的课程。"
  else
    ((get_step_config session.current_step).map StepConfig.question).getD ""

/-- Key under which a dynamic answer number `n` is stored. -/
def positional_answer_key (n : Nat) : String :=
  "question_" ++ toString n ++ "_answer"

/-- Embedding of `TeachingService._process_dynamic_answer` (source lines
460-523): append the history record, store the answer under
`question_<n+1>_answer`, increment the counter, consult the continuation
policy (fixed `min_questions = 3`), and either finalize or ask the
question generator — falling back to finalize when it returns null. -/
def process_dynamic_answer (o : LLMOracle) (session : SessionState)
    (answer : String) : StepResult :=
  let current_question := get_current_question_for_history session
  let s := { session with
    history := session.history ++
      [({ step := session.current_step, question := current_question,
          answer := answer,
          question_count := some (session.ai_questions_asked + 1) } : HistoryEntry)] }
  let key_to_save := positional_answer_key (s.ai_questions_asked + 1)
  let s := { s with collected_data := dictSet s.collected_data key_to_save answer }
  let s := { s with ai_questions_asked := s.ai_questions_asked + 1 }
  let continue_decision :=
    should_continue_questioning s.collected_data s.ai_questions_asked 3 s.max_ai_questions
  if !continue_decision.should_continue then
    finalize_lesson_plan o s
  else
    match generate_next_question o.next_question_response s.collected_data
        s.ai_questions_asked s.max_ai_questions with
    | some next_question =>
        let s := { s with
          current_step := "dynamic_question_" ++ toString (s.ai_questions_asked + 1) }
        (s, [], .question next_question)
    | none => finalize_lesson_plan o s

/-- Embedding of `TeachingService._process_traditional_answer` (source lines
525-575).  With a config for the current step, `get_next_step` returns
exactly `config.next_step`, which is compared against the `finalize`
sentinel.  An unknown step raises (`ValueError`, rolled back: session
unchanged). -/
def process_traditional_answer (o : LLMOracle) (session : SessionState)
    (answer : String) : StepResult :=
  match get_step_config session.current_step with
  | none => (session, [], .failure .invalidStep)
  | some config =>
      let s := { session with
        history := session.history ++
          [({ step := session.current_step, question := config.question,
              answer := answer, question_count := none } : HistoryEntry)] }
      let s := { s with collected_data := dictSet s.collected_data config.key_to_save answer }
      if config.next_step = "finalize" then
        finalize_lesson_plan o s
      else
        ({ s with current_step := config.next_step }, [],
         .question (get_question_card config.next_step))

/-- Embedding of `TeachingService.process_answer` (source lines 83-116):
reject a session not IN_PROGRESS (`ValueError` — INVALID_STATE — with every
field unchanged), then dispatch on whether the current step is dynamic. -/
def process_answer (o : LLMOracle) (session : SessionState) (answer : String) :
    StepResult :=
  if session.status ≠ .in_progress then (session, [], .failure .invalidState)
  else if pyStartsWith session.current_step "dynamic_question_" then
    process_dynamic_answer o session answer
  else
    process_traditional_answer o session answer

/-- Embedding of the session created by `TeachingService.start_conversation`
(source lines 40-58). -/
def start_session (user_id : Nat) (use_dynamic_mode : Bool) (session_id : String) :
    SessionState :=
  { session_id := session_id,
    user_id := user_id,
    status := .in_progress,
    current_step := if use_dynamic_mode then "dynamic_question_1"
                    else CONVERSATION_FLOW_start_step,
    collected_data := [],
    history := [],
    ai_questions_asked := 0,
    max_ai_questions := 5,
    lesson_plan_id := none }

/-- Iterate `process_answer` over a list of (oracle, answer) turns, keeping
the committed session state. -/
def run_answers (session : SessionState) : List (LLMOracle × String) → SessionState
  | [] => session
  | (o, a) :: rest => run_answers (process_answer o session a).1 rest

/-- Embedding of `TeachingService.get_active_sessions` (source lines
630-658): the query references `SessionStatus.IN_PROGRESS` and
`SessionStatus.WAITING_FOR_INPUT`; either missing enum member is an
`AttributeError` raised while building the filter, before any row is
fetched.  The unreachable success branch returns the rows that would match. -/
def get_active_sessions (db : List SessionState) (user_id : Nat) :
    Except PyError (List SessionState) :=
  match sessionStatusMember "IN_PROGRESS" with
  | none => .error .attributeError
  | some st1 =>
      match sessionStatusMember "WAITING_FOR_INPUT" with
      | none => .error .attributeError
      | some st2 =>
          .ok (db.filter fun s =>
            s.user_id = user_id && (s.status = st1 || s.status = st2))

/-! ## Concrete example inputs used by witnesses and counterexamples -/

/-- A parsed LLM question response with the five checked keys, four options,
and no `priority` key. -/
def qd_no_priority : List (String × PyVal) :=
  [("question", .str "您希望采用哪种教学方法？"),
   ("question_type", .str "teaching_method"),
   ("key_to_save", .str "teaching_method"),
   ("options", .list [.str "讲授法", .str "讨论法", .str "实验法", .str "项目式"]),
   ("allows_free_text", .bool true)]

/-- Collected data whose only entry is a non-first positional answer; the
`subject` field and `question_1_answer` are absent. -/
def cd_missing_first_answer : List (String × String) :=
  [("question_2_answer", "历史")]

/-- A well-formed lesson-plan draft, as the generation oracle may return. -/
def draft_example : LessonPlanDraft :=
  { title := "光合作用探秘",
    learning_objectives := ["理解光反应", "掌握暗反应"],
    teaching_outline := "从现象到机理的探究课",
    activities := [⟨1, "课堂导入", "展示绿叶实验", 5⟩, ⟨2, "新知讲解", "讲解反应过程", 40⟩],
    web_search_info := none }

/-- Oracle whose every outbound call fails (returns null). -/
def oracle_none : LLMOracle := ⟨none, none⟩

/-- A concrete JSON-parsing oracle recognizing the single document
`\x7b"a":1\x7d` (as `json.loads` would, yielding its decoded value). -/
def parse_example : String → Except Unit Nat :=
  fun s => if s = "\x7b\"a\":1\x7d" then .ok 1 else .error ()

/-- Oracle that fails question generation but returns a draft at finalize. -/
def oracle_with_draft : LLMOracle := ⟨none, some draft_example⟩

/-- A session already COMPLETED. -/
def session_completed_example : SessionState :=
  { session_id := "sess-1", user_id := 7, status := .completed,
    current_step := "dynamic_question_3",
    collected_data := [("question_1_answer", "数学"), ("question_2_answer", "初二")],
    history := [], ai_questions_asked := 2, max_ai_questions := 5,
    lesson_plan_id := some 1 }

/-- Weight table as the specification states it: exact decimal weights. -/
def spec_key_weights : List (String × ℚ) :=
  [("subject", 2/10), ("grade", 2/10), ("topic", 2/10), ("duration_minutes", 1/10),
   ("teaching_method", 1/10), ("student_level", 1/10), ("learning_objectives", 1/10)]

/-- Completeness as the specification describes it: the exact sum of the
weights of the keys present and non-empty, capped at 1. -/
def spec_completeness (cd : List (String × String)) : ℚ :=
  min (((spec_key_weights.filter fun kw => dictHasTruthy cd kw.1).map Prod.snd).sum) 1

/-- Collected data holding subject, grade and the four 0.1-weight fields:
the exact weight sum is 0.8. -/
def cd_sum_point_eight : List (String × String) :=
  [("subject", "数学"), ("grade", "初二"), ("duration_minutes", "45"),
   ("teaching_method", "讲授"), ("student_level", "中等"), ("learning_objectives", "方程")]

/-- A DYNAMIC-mode session one answer away from the question ceiling. -/
def session_dyn4 : SessionState :=
  { session_id := "sess-2", user_id := 7, status := .in_progress,
    current_step := "dynamic_question_5",
    collected_data := [("question_1_answer", "数学"), ("question_2_answer", "初二"),
                       ("question_3_answer", "方程"), ("question_4_answer", "45分钟")],
    history := [], ai_questions_asked := 4, max_ai_questions := 5,
    lesson_plan_id := none }

/-- Invariant carried by every reachable DYNAMIC-mode session: the counter
is within the ceiling, and while IN_PROGRESS the step is dynamic and the
counter strictly below the ceiling. -/
def DynInv (s : SessionState) : Prop :=
  s.ai_questions_asked ≤ s.max_ai_questions ∧
  (s.status = .in_progress →
    pyStartsWith s.current_step "dynamic_question_" = true ∧
    s.ai_questions_asked < s.max_ai_questions)

/-! ## Helper lemmas -/

/-- Conditional accumulation over the table equals accumulation over the
filtered table, for any accumulator function. -/
theorem foldl_filter (f : ℚ → ℚ → ℚ) (ws : List (String × ℚ))
    (p : String × ℚ → Bool) (acc : ℚ) :
    ws.foldl (fun a kw => if p kw then f a kw.2 else a) acc
      = ((ws.filter p).map Prod.snd).foldl f acc := by
  induction ws generalizing acc with
  | nil => rfl
  | cons kw rest ih =>
      by_cases h : p kw
      · simp [h, ih]
      · simp [h, ih]

/-- Appending two strings concatenates their character lists. -/
theorem string_data_append (s t : String) : (s ++ t).data = s.data ++ t.data := rfl

/-- Every positional answer key starts with the character `q`. -/
theorem positional_answer_key_head (n : Nat) :
    (positional_answer_key n).data.head? = some 'q' := rfl

/-- A positional answer key differs from any string not starting with `q`. -/
theorem positional_ne_of_head (n : Nat) (w : String)
    (hw : w.data.head? ≠ some 'q') : positional_answer_key n ≠ w :=
  fun h => hw (h ▸ positional_answer_key_head n)

/-- Lookup misses when no key of the dict equals the requested key. -/
theorem dictGet?_eq_none {α : Type} (cd : List (String × α)) (w : String)
    (h : ∀ kv ∈ cd, kv.1 ≠ w) : dictGet? cd w = none := by
  induction cd with
  | nil => rfl
  | cons kv rest ih =>
      have hne : kv.1 ≠ w := h kv (List.mem_cons_self kv rest)
      simp only [dictGet?, if_neg hne]
      exact ih fun kv' hm => h kv' (List.mem_cons_of_mem kv hm)

/-- With purely positional keys, every weight-table lookup is falsy. -/
theorem dictHasTruthy_weight_false (cd : List (String × String))
    (hpos : ∀ kv ∈ cd, ∃ n : Nat, kv.1 = positional_answer_key n)
    (w : String) (hw : w.data.head? ≠ some 'q') :
    dictHasTruthy cd w = false := by
  have hnone : dictGet? cd w = none := by
    apply dictGet?_eq_none
    intro kv hm
    obtain ⟨n, hn⟩ := hpos kv hm
    exact hn ▸ positional_ne_of_head n w hw
  simp [dictHasTruthy, hnone]

/-- Finalizing never leaves the session IN_PROGRESS: it commits PROCESSING
and ends at PROCESSING, COMPLETED or FAILED. -/
theorem finalize_status_not_in_progress (o : LLMOracle) (s : SessionState) :
    (finalize_lesson_plan o s).1.status ≠ .in_progress := by
  unfold finalize_lesson_plan
  cases o.lesson_plan_response with
  | none => simp
  | some pd => cases h : save_lesson_plan s.user_id s.collected_data pd <;> simp [h]

/-- Finalizing never returns a question card. -/
theorem finalize_not_question (o : LLMOracle) (s : SessionState)
    (card : List (String × PyVal)) :
    (finalize_lesson_plan o s).2.2 ≠ .question card := by
  unfold finalize_lesson_plan
  cases o.lesson_plan_response with
  | none => simp
  | some pd => cases h : save_lesson_plan s.user_id s.collected_data pd <;> simp [h]

/-- The question generator returns null whenever the oracle response is
absent or fails validation (for any count below the ceiling as well). -/
theorem gnq_none_of_invalid (resp : Option (List (String × PyVal)))
    (cd : List (String × String)) (qc mq : Nat)
    (h : ∀ qd, resp = some qd → validate_question_format qd = false) :
    generate_next_question resp cd qc mq = none := by
  unfold generate_next_question
  split
  · rfl
  · cases hr : resp with
    | none => rfl
    | some qd => simp [h qd hr]

/-- A dynamic-mode answer whose question-generation response is absent or
invalid never yields a question card: the orchestrator falls through to
finalize (either because the policy said stop, or because the generator
returned null). -/
theorem process_dynamic_no_question_of_invalid (o : LLMOracle)
    (s : SessionState) (a : String)
    (h : ∀ qd, o.next_question_response = some qd →
      validate_question_format qd = false) :
    ∀ card, (process_dynamic_answer o s a).2.2 ≠ .question card := by
  intro card
  unfold process_dynamic_answer
  simp only []
  split
  · exact finalize_not_question o _ card
  · rw [gnq_none_of_invalid _ _ _ _ h]
    exact finalize_not_question o _ card

/-! ## Claim theorems -/

/-- Binary64 value of the literal 0.2. -/
theorem flv_02 : floatOfRat 0.2 = 3602879701896397 / 18014398509481984 := by
  have l0 : Int.toNat 1 = 1 := rfl
  have l1 : natLog2 1 = 0 := by decide
  have l2 : natLog2 5 = 2 := by decide
  norm_num [floatOfRat, l0, l1, l2]

/-- Binary64 value of the literal 0.1. -/
theorem flv_01 : floatOfRat 0.1 = 3602879701896397 / 36028797018963968 := by
  have l0 : Int.toNat 1 = 1 := rfl
  have l1 : natLog2 1 = 0 := by decide
  have l2 : natLog2 10 = 3 := by decide
  norm_num [floatOfRat, l0, l1, l2]

/-- Binary64 value of the literal 0.8. -/
theorem flv_08 : floatOfRat 0.8 = 3602879701896397 / 4503599627370496 := by
  have l0 : Int.toNat 4 = 4 := rfl
  have l1 : natLog2 4 = 2 := by decide
  have l2 : natLog2 5 = 2 := by decide
  norm_num [floatOfRat, l0, l1, l2]

/-- Binary64 value of the literal 0.6. -/
theorem flv_06 : floatOfRat 0.6 = 5404319552844595 / 9007199254740992 := by
  have l0 : Int.toNat 3 = 3 := rfl
  have l1 : natLog2 3 = 1 := by decide
  have l2 : natLog2 5 = 2 := by decide
  norm_num [floatOfRat, l0, l1, l2]

set_option maxRecDepth 16000
set_option maxHeartbeats 2000000

/-- Float accumulation, first weight: 0.0 + 0.2. -/
theorem flstep_1 : fladd 0 (3602879701896397 / 18014398509481984)
    = 3602879701896397 / 18014398509481984 := by
  have l0 : Int.toNat 3602879701896397 = 3602879701896397 := rfl
  have l1 : natLog2 3602879701896397 = 51 := by decide
  have l2 : natLog2 18014398509481984 = 54 := by decide
  norm_num [fladd, floatOfRat, l0, l1, l2]

/-- Float accumulation, second weight: 0.2 + 0.2. -/
theorem flstep_2 : fladd (3602879701896397 / 18014398509481984)
    (3602879701896397 / 18014398509481984) = 3602879701896397 / 9007199254740992 := by
  have l0 : Int.toNat 3602879701896397 = 3602879701896397 := rfl
  have l1 : natLog2 3602879701896397 = 51 := by decide
  have l2 : natLog2 9007199254740992 = 53 := by decide
  norm_num [fladd, floatOfRat, l0, l1, l2]

/-- Float accumulation, third weight: 0.4 + 0.1 (rounds to exactly 0.5). -/
theorem flstep_3 : fladd (3602879701896397 / 9007199254740992)
    (3602879701896397 / 36028797018963968) = 1 / 2 := by
  have l0 : Int.toNat 18014398509481985 = 18014398509481985 := rfl
  have l1 : natLog2 18014398509481985 = 54 := by decide
  have l2 : natLog2 36028797018963968 = 55 := by decide
  norm_num [fladd, floatOfRat, l0, l1, l2]

/-- Float accumulation, fourth weight: 0.5 + 0.1. -/
theorem flstep_4 : fladd (1 / 2) (3602879701896397 / 36028797018963968)
    = 5404319552844595 / 9007199254740992 := by
  have l0 : Int.toNat 21617278211378381 = 21617278211378381 := rfl
  have l1 : natLog2 21617278211378381 = 54 := by decide
  have l2 : natLog2 36028797018963968 = 55 := by decide
  norm_num [fladd, floatOfRat, l0, l1, l2]

/-- Float accumulation, fifth weight: 0.6 + 0.1. -/
theorem flstep_5 : fladd (5404319552844595 / 9007199254740992)
    (3602879701896397 / 36028797018963968) = 3152519739159347 / 4503599627370496 := by
  have l0 : Int.toNat 25220157913274777 = 25220157913274777 := rfl
  have l1 : natLog2 25220157913274777 = 54 := by decide
  have l2 : natLog2 36028797018963968 = 55 := by decide
  norm_num [fladd, floatOfRat, l0, l1, l2]

/-- Float accumulation, sixth weight: 0.7000000000000001 + 0.1 gives
0.7999999999999999, strictly below the binary64 value of 0.8. -/
theorem flstep_6 : fladd (3152519739159347 / 4503599627370496)
    (3602879701896397 / 36028797018963968) = 7205759403792793 / 9007199254740992 := by
  have l0 : Int.toNat 28823037615171173 = 28823037615171173 := rfl
  have l1 : natLog2 28823037615171173 = 54 := by decide
  have l2 : natLog2 36028797018963968 = 55 := by decide
  norm_num [fladd, floatOfRat, l0, l1, l2]

/-- Truthiness of each weight key in `cd_sum_point_eight`. -/
theorem cd8_truthy :
    dictHasTruthy cd_sum_point_eight "subject" = true ∧
    dictHasTruthy cd_sum_point_eight "grade" = true ∧
    dictHasTruthy cd_sum_point_eight "topic" = false ∧
    dictHasTruthy cd_sum_point_eight "duration_minutes" = true ∧
    dictHasTruthy cd_sum_point_eight "teaching_method" = true ∧
    dictHasTruthy cd_sum_point_eight "student_level" = true ∧
    dictHasTruthy cd_sum_point_eight "learning_objectives" = true :=
  ⟨rfl, rfl, rfl, rfl, rfl, rfl, rfl⟩

/-- C2 counterexample: with subject, grade and the four 0.1-weight fields
present the exact weight sum is 0.8, so the claim says the middle tier must
stop (completeness ≥ 0.8); but the code accumulates in binary64 floats,
obtains 0.7999999999999999 < float(0.8), and continues. -/
theorem completeness_float_gap :
    spec_completeness cd_sum_point_eight = 8/10 ∧
    (8/10 : ℚ) ≤ spec_completeness cd_sum_point_eight ∧
    (should_continue_questioning cd_sum_point_eight 3 3 5).should_continue = true ∧
    calculate_data_completeness cd_sum_point_eight < floatOfRat 0.8 := by
  obtain ⟨t1, t2, t3, t4, t5, t6, t7⟩ := cd8_truthy
  have hs : ((spec_key_weights.filter fun kw =>
      dictHasTruthy cd_sum_point_eight kw.1).map Prod.snd).sum = 8/10 := by
    simp only [spec_key_weights, List.filter_cons, t1, t2, t3, t4, t5, t6, t7,
      List.filter_nil, decide_True, decide_False, List.map_cons, List.map_nil,
      List.sum_cons, List.sum_nil]
    norm_num
  have hspec : spec_completeness cd_sum_point_eight = 8/10 := by
    unfold spec_completeness
    rw [hs, min_eq_left (by norm_num)]
  have hfold : key_weights.foldl
      (fun acc kw => if dictHasTruthy cd_sum_point_eight kw.1 then fladd acc kw.2 else acc) 0
      = 7205759403792793/9007199254740992 := by
    simp only [key_weights, List.foldl_cons, List.foldl_nil, t1, t2, t3, t4, t5, t6, t7,
      if_true, if_false, flv_02, flv_01]
    simp only [Bool.false_eq_true, if_false]
    simp only [flstep_1, flstep_2, flstep_3, flstep_4, flstep_5, flstep_6]
  have hcalc : calculate_data_completeness cd_sum_point_eight
      = 7205759403792793/9007199254740992 := by
    unfold calculate_data_completeness
    rw [hfold, min_eq_left (by norm_num)]
  refine ⟨hspec, by rw [hspec], ?_, by rw [hcalc, flv_08]; norm_num⟩
  unfold should_continue_questioning
  rw [if_neg (by omega), if_neg (by omega)]
  simp only []
  rw [hcalc]
  rw [if_neg (by rw [flv_08]; norm_num), if_pos (by rw [flv_06]; norm_num)]

/-- C2 (amended): `should_continue_questioning` is the deterministic
three-tier policy: below `min_questions` always continue with confidence 1;
at or above `max_questions` always stop with confidence 1; otherwise stop
exactly when the binary64-accumulated completeness score reaches the
binary64 value of 0.8, with confidence equal to that score, the score being
the float accumulation of the weight table (binary64 values of 0.2/0.1)
over the keys present and non-empty, capped at 1 — which differs from the
exact weight sum precisely where rounding moves it across a threshold, as
in the counterexample. -/
theorem should_continue_three_tier_policy :
    (∀ (cd : List (String × String)) (qc mn mx : Nat), qc < mn →
      should_continue_questioning cd qc mn mx = ⟨true, "未达到最少问题数量", 1⟩) ∧
    (∀ (cd : List (String × String)) (qc mn mx : Nat), mn ≤ qc → mx ≤ qc →
      should_continue_questioning cd qc mn mx = ⟨false, "已达到最大问题数量", 1⟩) ∧
    (∀ (cd : List (String × String)) (qc mn mx : Nat), mn ≤ qc → qc < mx →
      ((should_continue_questioning cd qc mn mx).should_continue = false ↔
        floatOfRat 0.8 ≤ calculate_data_completeness cd) ∧
      (should_continue_questioning cd qc mn mx).confidence =
        calculate_data_completeness cd) ∧
    (∀ cd : List (String × String), calculate_data_completeness cd =
      min (((key_weights.filter
        fun kw => dictHasTruthy cd kw.1).map Prod.snd).foldl fladd 0) 1) := by
  refine ⟨?_, ?_, ?_, ?_⟩
  · intro cd qc mn mx h
    simp [should_continue_questioning, h]
  · intro cd qc mn mx h1 h2
    simp [should_continue_questioning, Nat.not_lt.mpr h1, h2]
  · intro cd qc mn mx h1 h2
    have hnot : ¬ qc < mn := Nat.not_lt.mpr h1
    have hnot2 : ¬ qc ≥ mx := Nat.not_le.mpr h2
    by_cases h8 : floatOfRat 0.8 ≤ calculate_data_completeness cd
    · simp [should_continue_questioning, hnot, hnot2, h8]
    · by_cases h6 : floatOfRat 0.6 ≤ calculate_data_completeness cd <;>
        simp [should_continue_questioning, hnot, hnot2, h8, h6]
  · intro cd
    unfold calculate_data_completeness
    rw [foldl_filter]

/-- C2 witness: the three tiers at concrete inputs. -/
theorem should_continue_three_tier_policy_witness :
    should_continue_questioning [] 0 3 5 = ⟨true, "未达到最少问题数量", 1⟩ ∧
    should_continue_questioning [] 5 3 5 = ⟨false, "已达到最大问题数量", 1⟩ ∧
    ((should_continue_questioning [("subject", "数学")] 3 3 5).should_continue = false ↔
      floatOfRat 0.8 ≤ calculate_data_completeness [("subject", "数学")]) ∧
    calculate_data_completeness [("subject", "数学")] =
      min (((key_weights.filter
        fun kw => dictHasTruthy [("subject", "数学")] kw.1).map Prod.snd).foldl fladd 0) 1 :=
  ⟨should_continue_three_tier_policy.1 [] 0 3 5 (by decide),
   should_continue_three_tier_policy.2.1 [] 5 3 5 (by decide) (by decide),
   (should_continue_three_tier_policy.2.2.1 [("subject", "数学")] 3 3 5
      (by decide) (by decide)).1,
   should_continue_three_tier_policy.2.2.2 [("subject", "数学")]⟩

/-- C5: when every collected key is positional (`question_<n>_answer`), the
completeness score is exactly 0, and the continuation policy reduces to
`continue iff questionsAsked < maxQuestions`: a pure DYNAMIC-mode session is
never stopped early by the completeness rule. -/
theorem positional_keys_zero_completeness :
    (∀ cd : List (String × String),
      (∀ kv ∈ cd, ∃ n : Nat, kv.1 = positional_answer_key n) →
      calculate_data_completeness cd = 0) ∧
    (∀ (cd : List (String × String)) (qc mn mx : Nat),
      (∀ kv ∈ cd, ∃ n : Nat, kv.1 = positional_answer_key n) → mn ≤ mx →
      (should_continue_questioning cd qc mn mx).should_continue = decide (qc < mx)) := by
  have hzero : ∀ cd : List (String × String),
      (∀ kv ∈ cd, ∃ n : Nat, kv.1 = positional_answer_key n) →
      calculate_data_completeness cd = 0 := by
    intro cd hpos
    have hfalse : ∀ kw ∈ key_weights, dictHasTruthy cd kw.1 = false := by
      intro kw hkw
      fin_cases hkw <;>
        exact dictHasTruthy_weight_false cd hpos _ (by decide)
    have hfilter : (key_weights.filter fun kw => dictHasTruthy cd kw.1) = [] :=
      List.filter_eq_nil_iff.mpr (by intro kw hkw; simp [hfalse kw hkw])
    unfold calculate_data_completeness
    rw [foldl_filter, hfilter]
    norm_num
  refine ⟨hzero, ?_⟩
  intro cd qc mn mx hpos hmn
  by_cases h1 : qc < mn
  · have : qc < mx := Nat.lt_of_lt_of_le h1 hmn
    simp [should_continue_questioning, h1, this]
  · by_cases h2 : qc ≥ mx
    · simp [should_continue_questioning, h1, h2, Nat.not_lt.mpr h2]
    · have hq : qc < mx := Nat.not_le.mp h2
      have h8 : ¬ (floatOfRat 0.8 ≤ 0) := by rw [flv_08]; norm_num
      have h6 : ¬ (floatOfRat 0.6 ≤ 0) := by rw [flv_06]; norm_num
      simp [should_continue_questioning, h1, h2, hzero cd hpos, hq, h8, h6]

/-- C5 witness: a two-answer purely positional dict at the middle tier. -/
theorem positional_keys_zero_completeness_witness :
    calculate_data_completeness
      [("question_1_answer", "数学"), ("question_2_answer", "初二")] = 0 ∧
    (should_continue_questioning
      [("question_1_answer", "数学"), ("question_2_answer", "初二")] 3 3 5).should_continue
      = decide ((3 : Nat) < 5) :=
  ⟨positional_keys_zero_completeness.1 _
      (by intro kv hm; fin_cases hm
          · exact ⟨1, rfl⟩
          · exact ⟨2, rfl⟩),
   positional_keys_zero_completeness.2 _ 3 3 5
      (by intro kv hm; fin_cases hm
          · exact ⟨1, rfl⟩
          · exact ⟨2, rfl⟩) (by decide)⟩

/-- C10: `get_active_sessions` references the enum members
`SessionStatus.IN_PROGRESS` and `SessionStatus.WAITING_FOR_INPUT`, neither of
which exists, so for every database and every user it raises
`AttributeError` before querying and can never return a list of sessions. -/
theorem get_active_sessions_always_attribute_error :
    ∀ (db : List SessionState) (user_id : Nat),
      get_active_sessions db user_id = .error .attributeError ∧
      ∀ l : List SessionState, get_active_sessions db user_id ≠ .ok l := by
  intro db user_id
  have h : get_active_sessions db user_id = .error .attributeError := rfl
  exact ⟨h, fun l hl => by rw [h] at hl; exact Except.noConfusion hl⟩

/-- C3: an `answer()` call on a session whose status is not IN_PROGRESS
(COMPLETED, FAILED or PROCESSING) fails with INVALID_STATE, creates no rows
and leaves every session field unchanged; and no `answer()` call ever moves
a session back to IN_PROGRESS. -/
theorem invalid_state_rejected_and_terminal :
    (∀ (o : LLMOracle) (s : SessionState) (a : String), s.status ≠ .in_progress →
      process_answer o s a = (s, [], .failure .invalidState)) ∧
    (∀ (o : LLMOracle) (s : SessionState) (a : String),
      (process_answer o s a).1.status = .in_progress → s.status = .in_progress) := by
  constructor
  · intro o s a h
    simp [process_answer, h]
  · intro o s a h
    by_cases hs : s.status = .in_progress
    · exact hs
    · rw [show process_answer o s a = (s, [], .failure .invalidState) by
        simp [process_answer, hs]] at h
      exact absurd h hs

/-- C3 witness: a COMPLETED session rejects an answer unchanged, and a
session that is IN_PROGRESS after an answer was IN_PROGRESS before it. -/
theorem invalid_state_rejected_and_terminal_witness :
    process_answer oracle_none session_completed_example "再试一次" =
      (session_completed_example, [], .failure .invalidState) ∧
    (start_session 1 false "sid-w3").status = .in_progress :=
  ⟨invalid_state_rejected_and_terminal.1 oracle_none session_completed_example
      "再试一次" (by decide),
   invalid_state_rejected_and_terminal.2 oracle_none
      (start_session 1 false "sid-w3") "生物" rfl⟩

/-- C4: when the generation oracle returns null during finalize, the session
ends FAILED with `lesson_plan_id` unchanged (still null if it was null), no
LessonPlan/Activity rows are created, GENERATION_FAILED is signalled, and
the resulting FAILED session rejects any further answer unchanged (no
automatic retry). -/
theorem finalize_null_generation_failed :
    (∀ (o : LLMOracle) (s : SessionState), o.lesson_plan_response = none →
      finalize_lesson_plan o s =
        ({ s with status := .failed }, [], .failure .generationFailed)) ∧
    (∀ (o : LLMOracle) (s : SessionState), o.lesson_plan_response = none →
      s.lesson_plan_id = none → (finalize_lesson_plan o s).1.lesson_plan_id = none) ∧
    (∀ (o o' : LLMOracle) (s : SessionState) (a : String),
      o.lesson_plan_response = none →
      process_answer o' (finalize_lesson_plan o s).1 a =
        ((finalize_lesson_plan o s).1, [], .failure .invalidState)) := by
  have hmain : ∀ (o : LLMOracle) (s : SessionState), o.lesson_plan_response = none →
      finalize_lesson_plan o s =
        ({ s with status := .failed }, [], .failure .generationFailed) := by
    intro o s h
    simp [finalize_lesson_plan, h]
  refine ⟨hmain, ?_, ?_⟩
  · intro o s h hid
    rw [hmain o s h]
    exact hid
  · intro o o' s a h
    rw [hmain o s h]
    simp [process_answer]

/-- C4 witness: the null-generation finalize at a concrete fresh session. -/
theorem finalize_null_generation_failed_witness :
    finalize_lesson_plan oracle_none (start_session 1 true "sid-w4") =
      ({ start_session 1 true "sid-w4" with status := .failed }, [],
        .failure .generationFailed) ∧
    (finalize_lesson_plan oracle_none (start_session 1 true "sid-w4")).1.lesson_plan_id
      = none ∧
    process_answer oracle_none
        (finalize_lesson_plan oracle_none (start_session 1 true "sid-w4")).1 "继续" =
      ((finalize_lesson_plan oracle_none (start_session 1 true "sid-w4")).1, [],
        .failure .invalidState) :=
  ⟨finalize_null_generation_failed.1 oracle_none _ rfl,
   finalize_null_generation_failed.2.1 oracle_none _ rfl rfl,
   finalize_null_generation_failed.2.2 oracle_none oracle_none _ "继续" rfl⟩

/-- C6 counterexample: a parsed response carrying only the five keys
`question`, `question_type`, `key_to_save`, `options` (four entries) and
`allows_free_text` — `priority` absent — is accepted by the validator, and
`generate_next_question` returns it as a question instead of null. -/
theorem validate_accepts_missing_priority :
    dictGet? qd_no_priority "priority" = none ∧
    validate_question_format qd_no_priority = true ∧
    generate_next_question (some qd_no_priority) [] 0 5 =
      some (dictSet qd_no_priority "step_key" (.str "dynamic_question_1")) :=
  ⟨rfl, rfl, rfl⟩

/-- C6 (amended): the validator requires exactly the five keys `question`,
`question_type`, `key_to_save`, `options`, `allows_free_text` (`priority` is
not checked) with an options list of length 4..6; any response failing this
makes `generate_next_question` return null with no retry, and the dynamic
branch of the orchestrator then finalizes instead of returning a question
card. -/
theorem validate_five_keys_characterization :
    (∀ qd : List (String × PyVal),
      validate_question_format qd = true ↔
        ((dictGet? qd "question").isSome ∧ (dictGet? qd "question_type").isSome ∧
         (dictGet? qd "key_to_save").isSome ∧ (dictGet? qd "allows_free_text").isSome ∧
         ∃ opts : List PyVal, dictGet? qd "options" = some (.list opts) ∧
           4 ≤ opts.length ∧ opts.length ≤ 6)) ∧
    (∀ (resp : Option (List (String × PyVal))) (cd : List (String × String)) (qc mq : Nat),
      (∀ qd, resp = some qd → validate_question_format qd = false) →
      generate_next_question resp cd qc mq = none) ∧
    (∀ (o : LLMOracle) (s : SessionState) (a : String),
      s.status = .in_progress → pyStartsWith s.current_step "dynamic_question_" = true →
      (∀ qd, o.next_question_response = some qd → validate_question_format qd = false) →
      ∀ card, (process_answer o s a).2.2 ≠ .question card) := by
  refine ⟨?_, ?_, ?_⟩
  · intro qd
    unfold validate_question_format required_keys
    constructor
    · intro hv
      rw [Bool.and_eq_true] at hv
      obtain ⟨hall, hopt⟩ := hv
      simp only [List.all_cons, List.all_nil, Bool.and_eq_true, Bool.and_true] at hall
      obtain ⟨h1, h2, h3, h4, h5⟩ := hall
      refine ⟨h1, h2, h3, h5, ?_⟩
      cases ho : dictGet? qd "options" with
      | none => rw [ho] at h4; exact absurd h4 (by simp)
      | some v =>
          rw [ho] at hopt
          cases v with
          | list opts =>
              simp only [Option.getD_some, Bool.and_eq_true, decide_eq_true_eq] at hopt
              exact ⟨opts, rfl, hopt.1, hopt.2⟩
          | str sv => simp at hopt
          | bool bv => simp at hopt
          | num nv => simp at hopt
    · rintro ⟨h1, h2, h3, h5, opts, ho, hl1, hl2⟩
      rw [Bool.and_eq_true]
      constructor
      · simp [List.all_cons, h1, h2, h3, h5, ho]
      · rw [ho]
        simp [hl1, hl2]
  · intro resp cd qc mq h
    exact gnq_none_of_invalid resp cd qc mq h
  · intro o s a hst hdyn h card
    rw [show process_answer o s a = process_dynamic_answer o s a by
      simp [process_answer, hst, hdyn]]
    exact process_dynamic_no_question_of_invalid o s a h card

/-- C6 witness: the characterization applied to a response missing
`key_to_save`, and to the orchestrator with a failing generation oracle. -/
theorem validate_five_keys_characterization_witness :
    ¬ validate_question_format [("question", .str "q")] = true ∧
    generate_next_question none [] 1 5 = none ∧
    ∀ card, (process_answer oracle_none session_dyn4 "代数").2.2 ≠ .question card :=
  ⟨fun hv => by
      have h := (validate_five_keys_characterization.1 [("question", .str "q")]).mp hv
      simp [dictGet?] at h,
   validate_five_keys_characterization.2.1 none [] 1 5 (by intro qd h; cases h),
   validate_five_keys_characterization.2.2 oracle_none session_dyn4 "代数" rfl
      (by decide) (by intro qd h; cases h)⟩

/-- C7: code bug — when `question_1_answer` is absent or empty while some
other positional answer is non-empty (and there is no direct `subject`
field), the subject-extraction heuristic raises `UnboundLocalError`: the
keyword tables are bound only inside the `if first_answer:` branch, yet the
fallback loop over the remaining answers references them.  The raised error
propagates out of `_save_lesson_plan`, so finalization aborts (with the
session stuck at PROCESSING and no plan persisted) instead of proceeding
with an empty-string subject.  Grade extraction on the same input is total
and returns the empty string, as the claim describes. -/
theorem extract_subject_raises_unbound_local :
    extract_subject_from_collected_data cd_missing_first_answer =
      .error .unboundLocal ∧
    extract_grade_from_collected_data cd_missing_first_answer = "" ∧
    finalize_lesson_plan oracle_with_draft
        { session_dyn4 with collected_data := cd_missing_first_answer } =
      ({ session_dyn4 with
          collected_data := cd_missing_first_answer,
          status := .processing }, [], .failure .unboundLocal) :=
  ⟨rfl, rfl, rfl⟩

/-- A list is a prefix of itself followed by anything. -/
theorem isPrefixOf_self_append (l m : List Char) : l.isPrefixOf (l ++ m) = true := by
  induction l with
  | nil => cases m <;> rfl
  | cons c t ih => simp [List.isPrefixOf, ih]

/-- A string starts with any of its literal prefixes. -/
theorem pyStartsWith_append (p t : String) : pyStartsWith (p ++ t) p = true := by
  unfold pyStartsWith
  rw [string_data_append]
  exact isPrefixOf_self_append p.data t.data

/-- `generate_next_question` at the ceiling returns null regardless of the
oracle response. -/
theorem gnq_ceiling (resp : Option (List (String × PyVal)))
    (cd : List (String × String)) (qc mq : Nat) (h : mq ≤ qc) :
    generate_next_question resp cd qc mq = none := by
  unfold generate_next_question
  rw [if_pos h]

/-- `generate_next_question` only returns a question below the ceiling. -/
theorem gnq_some_lt (resp : Option (List (String × PyVal)))
    (cd : List (String × String)) (qc mq : Nat) (q : List (String × PyVal))
    (h : generate_next_question resp cd qc mq = some q) : qc < mq := by
  by_contra hc
  rw [gnq_ceiling resp cd qc mq (Nat.le_of_not_lt hc)] at h
  exact Option.noConfusion h

/-- Finalizing preserves the question counter and the ceiling. -/
theorem finalize_preserves_counters (o : LLMOracle) (s : SessionState) :
    (finalize_lesson_plan o s).1.ai_questions_asked = s.ai_questions_asked ∧
    (finalize_lesson_plan o s).1.max_ai_questions = s.max_ai_questions := by
  unfold finalize_lesson_plan
  cases o.lesson_plan_response with
  | none => exact ⟨rfl, rfl⟩
  | some pd =>
      cases h : save_lesson_plan s.user_id s.collected_data pd <;> simp [h]

/-- A dynamic-mode answer increments the question counter by exactly one and
never changes the ceiling. -/
theorem process_dynamic_increments (o : LLMOracle) (s : SessionState) (a : String) :
    (process_dynamic_answer o s a).1.ai_questions_asked = s.ai_questions_asked + 1 ∧
    (process_dynamic_answer o s a).1.max_ai_questions = s.max_ai_questions := by
  unfold process_dynamic_answer
  simp only []
  split
  · exact finalize_preserves_counters o _
  · split
    · exact ⟨rfl, rfl⟩
    · exact finalize_preserves_counters o _

/-- A dynamic-mode answer reaching the ceiling triggers finalize: the session
leaves IN_PROGRESS and no question card is returned. -/
theorem process_dynamic_ceiling_finalizes (o : LLMOracle) (s : SessionState)
    (a : String) (h : s.max_ai_questions ≤ s.ai_questions_asked + 1) :
    (process_dynamic_answer o s a).1.status ≠ .in_progress ∧
    ∀ card, (process_dynamic_answer o s a).2.2 ≠ .question card := by
  unfold process_dynamic_answer
  simp only []
  split
  · exact ⟨finalize_status_not_in_progress o _, finalize_not_question o _⟩
  · rw [gnq_ceiling _ _ _ _ h]
    exact ⟨finalize_status_not_in_progress o _, finalize_not_question o _⟩

/-- One `answer()` turn preserves the dynamic invariant. -/
theorem process_answer_preserves_DynInv (o : LLMOracle) (s : SessionState)
    (a : String) (h : DynInv s) : DynInv (process_answer o s a).1 := by
  by_cases hs : s.status = .in_progress
  · obtain ⟨hle, hdy⟩ := h
    obtain ⟨hdyn, hlt⟩ := hdy hs
    rw [show process_answer o s a = process_dynamic_answer o s a by
      simp [process_answer, hs, hdyn]]
    unfold process_dynamic_answer
    simp only []
    split
    · refine ⟨?_, fun hst => absurd hst (finalize_status_not_in_progress o _)⟩
      rw [(finalize_preserves_counters o _).1, (finalize_preserves_counters o _).2]
      exact hlt
    · cases hg : generate_next_question o.next_question_response
          (dictSet s.collected_data (positional_answer_key (s.ai_questions_asked + 1)) a)
          (s.ai_questions_asked + 1) s.max_ai_questions with
      | none =>
          refine ⟨?_, fun hst => absurd hst (finalize_status_not_in_progress o _)⟩
          rw [(finalize_preserves_counters o _).1, (finalize_preserves_counters o _).2]
          exact hlt
      | some q =>
          have hql := gnq_some_lt _ _ _ _ _ hg
          exact ⟨Nat.le_of_lt hql, fun _ => ⟨pyStartsWith_append _ _, hql⟩⟩
  · rw [show process_answer o s a = (s, [], .failure .invalidState) by
      simp [process_answer, hs]]
    exact h

/-- Every trace of `answer()` turns preserves the dynamic invariant. -/
theorem run_answers_preserves_DynInv (trace : List (LLMOracle × String))
    (s : SessionState) (h : DynInv s) : DynInv (run_answers s trace) := by
  induction trace generalizing s with
  | nil => exact h
  | cons p rest ih => exact ih _ (process_answer_preserves_DynInv p.1 s p.2 h)

/-- C1: the question ceiling.  `generate_next_question` called at or above
the ceiling returns null with no LLM call (the result is independent of the
oracle); each dynamic-mode `answer()` increments `questionsAsked` by exactly
one; the answer that reaches the ceiling finalizes instead of returning a
question card; and along every trace from a freshly started DYNAMIC session,
`questionsAsked` never exceeds `maxQuestions`. -/
theorem question_ceiling :
    (∀ (resp : Option (List (String × PyVal))) (cd : List (String × String))
        (qc mq : Nat), mq ≤ qc → generate_next_question resp cd qc mq = none) ∧
    (∀ (o : LLMOracle) (s : SessionState) (a : String),
      s.status = .in_progress →
      pyStartsWith s.current_step "dynamic_question_" = true →
      (process_answer o s a).1.ai_questions_asked = s.ai_questions_asked + 1) ∧
    (∀ (o : LLMOracle) (s : SessionState) (a : String),
      s.status = .in_progress →
      pyStartsWith s.current_step "dynamic_question_" = true →
      s.max_ai_questions ≤ s.ai_questions_asked + 1 →
      (process_answer o s a).1.status ≠ .in_progress ∧
      ∀ card, (process_answer o s a).2.2 ≠ .question card) ∧
    (∀ (user_id : Nat) (session_id : String) (trace : List (LLMOracle × String)),
      (run_answers (start_session user_id true session_id) trace).ai_questions_asked ≤
        (run_answers (start_session user_id true session_id) trace).max_ai_questions) := by
  refine ⟨gnq_ceiling, ?_, ?_, ?_⟩
  · intro o s a hs hdyn
    rw [show process_answer o s a = process_dynamic_answer o s a by
      simp [process_answer, hs, hdyn]]
    exact (process_dynamic_increments o s a).1
  · intro o s a hs hdyn hmax
    rw [show process_answer o s a = process_dynamic_answer o s a by
      simp [process_answer, hs, hdyn]]
    exact process_dynamic_ceiling_finalizes o s a hmax
  · intro user_id session_id trace
    have hstart : DynInv (start_session user_id true session_id) := by
      refine ⟨?_, fun _ => ⟨?_, ?_⟩⟩
      · show (0 : Nat) ≤ 5
        decide
      · show pyStartsWith "dynamic_question_1" "dynamic_question_" = true
        decide
      · show (0 : Nat) < 5
        decide
    exact (run_answers_preserves_DynInv trace _ hstart).1

/-- C1 witness: the ceiling guard at 5/5, the increment and finalize on the
fifth answer of a concrete session, and a concrete five-answer trace. -/
theorem question_ceiling_witness :
    generate_next_question none [] 5 5 = none ∧
    (process_answer oracle_with_draft session_dyn4 "什么都行").1.ai_questions_asked = 5 ∧
    ((process_answer oracle_with_draft session_dyn4 "什么都行").1.status ≠ .in_progress ∧
      ∀ card, (process_answer oracle_with_draft session_dyn4 "什么都行").2.2 ≠
        .question card) ∧
    (run_answers (start_session 7 true "sid-w1")
        [(oracle_none, "数学"), (oracle_none, "初二")]).ai_questions_asked ≤
      (run_answers (start_session 7 true "sid-w1")
        [(oracle_none, "数学"), (oracle_none, "初二")]).max_ai_questions :=
  ⟨question_ceiling.1 none [] 5 5 (by decide),
   question_ceiling.2.1 oracle_with_draft session_dyn4 "什么都行" rfl (by decide),
   question_ceiling.2.2.1 oracle_with_draft session_dyn4 "什么都行" rfl (by decide)
     (by decide),
   question_ceiling.2.2.2 7 "sid-w1" [(oracle_none, "数学"), (oracle_none, "初二")]⟩

/-- C8: a FIXED-mode session visits the steps `ask_subject`, `ask_grade`,
`ask_topic`, `ask_duration` in exactly that order under successive
`answer()` calls with any (non-empty) texts, stays IN_PROGRESS returning a
question card at each of the first three answers, and at the fourth answer
finalizes: no further question card, status leaves IN_PROGRESS.  No step is
revisited and no other step occurs. -/
theorem fixed_flow_step_order (o₁ o₂ o₃ o₄ : LLMOracle) (a₁ a₂ a₃ a₄ : String)
    (_h1 : a₁ ≠ "") (_h2 : a₂ ≠ "") (_h3 : a₃ ≠ "") (_h4 : a₄ ≠ "")
    (user_id : Nat) (session_id : String) :
    (start_session user_id false session_id).current_step = "ask_subject" ∧
    (start_session user_id false session_id).status = .in_progress ∧
    ((run_answers (start_session user_id false session_id)
        [(o₁, a₁)]).current_step = "ask_grade" ∧
     (run_answers (start_session user_id false session_id)
        [(o₁, a₁)]).status = .in_progress ∧
     ∃ card, (process_answer o₁ (start_session user_id false session_id) a₁).2.2 =
        .question card) ∧
    ((run_answers (start_session user_id false session_id)
        [(o₁, a₁), (o₂, a₂)]).current_step = "ask_topic" ∧
     (run_answers (start_session user_id false session_id)
        [(o₁, a₁), (o₂, a₂)]).status = .in_progress ∧
     ∃ card, (process_answer o₂ (run_answers (start_session user_id false session_id)
        [(o₁, a₁)]) a₂).2.2 = .question card) ∧
    ((run_answers (start_session user_id false session_id)
        [(o₁, a₁), (o₂, a₂), (o₃, a₃)]).current_step = "ask_duration" ∧
     (run_answers (start_session user_id false session_id)
        [(o₁, a₁), (o₂, a₂), (o₃, a₃)]).status = .in_progress ∧
     ∃ card, (process_answer o₃ (run_answers (start_session user_id false session_id)
        [(o₁, a₁), (o₂, a₂)]) a₃).2.2 = .question card) ∧
    ((run_answers (start_session user_id false session_id)
        [(o₁, a₁), (o₂, a₂), (o₃, a₃), (o₄, a₄)]).status ≠ .in_progress ∧
     ∀ card, (process_answer o₄ (run_answers (start_session user_id false session_id)
        [(o₁, a₁), (o₂, a₂), (o₃, a₃)]) a₄).2.2 ≠ .question card) := by
  refine ⟨rfl, rfl, ⟨rfl, rfl, ⟨_, rfl⟩⟩, ⟨rfl, rfl, ⟨_, rfl⟩⟩, ⟨rfl, rfl, ⟨_, rfl⟩⟩,
    ⟨?_, ?_⟩⟩
  · exact finalize_status_not_in_progress o₄ _
  · exact fun card => finalize_not_question o₄ _ card

/-- C8 witness: the canonical four-answer FIXED-mode run. -/
theorem fixed_flow_step_order_witness :
    (run_answers (start_session 1 false "sid-w8")
      [(oracle_none, "生物"), (oracle_none, "初中二年级"),
       (oracle_none, "光合作用")]).current_step = "ask_duration" :=
  (fixed_flow_step_order oracle_none oracle_none oracle_none oracle_none
    "生物" "初中二年级" "光合作用" "45" (by decide) (by decide) (by decide)
    (by decide) 1 "sid-w8").2.2.2.2.1.1

/-- A right strip is a left strip of the reversed list, reversed: the
embedding agrees with Mathlib's `List.rdropWhile`. -/
theorem rstripData_eq_rdropWhile (l : List Char) :
    rstripData l = List.rdropWhile isPySpace l := rfl

/-- Left-stripping an already left-stripped list changes nothing. -/
theorem lstripData_idem (l : List Char) :
    lstripData (lstripData l) = lstripData l :=
  List.dropWhile_idempotent isPySpace l

/-- Left-stripping a right-stripped, already left-stripped list changes
nothing: right-stripping only shortens the tail, so the head still fails the
whitespace predicate. -/
theorem lstrip_rstrip_of_lstripped (y : List Char) (hy : lstripData y = y) :
    lstripData (rstripData y) = rstripData y := by
  cases hz : rstripData y with
  | nil => rfl
  | cons c t =>
      have hpre : rstripData y <+: y := List.rdropWhile_prefix isPySpace y
      rw [hz] at hpre
      obtain ⟨rest, hrest⟩ := hpre
      have h0 := List.dropWhile_eq_self_iff.mp hy
      have hc : ¬ isPySpace c = true := by
        have hlen : 0 < y.length := by
          rw [← hrest]; simp
        have hget := h0 hlen
        have : y.get ⟨0, hlen⟩ = c := by
          have : y = c :: (t ++ rest) := hrest.symm
          subst this
          rfl
        rwa [this] at hget
      exact List.dropWhile_cons_of_neg hc

/-- `str.strip()` is idempotent. -/
theorem pyStrip_idem (s : String) : pyStrip (pyStrip s) = pyStrip s := by
  refine congrArg String.mk ?_
  show rstripData (lstripData (rstripData (lstripData s.data)))
      = rstripData (lstripData s.data)
  rw [lstrip_rstrip_of_lstripped (lstripData s.data) (lstripData_idem s.data)]
  exact List.rdropWhile_idempotent isPySpace _

/-- Stripping is unaffected by one trailing newline. -/
theorem strip_snoc_newline (m : List Char) :
    rstripData (lstripData (m ++ ['\n'])) = rstripData (lstripData m) := by
  unfold lstripData
  rw [List.dropWhile_append]
  split
  · rename_i h
    have hm : List.dropWhile isPySpace m = [] := by
      cases hd : List.dropWhile isPySpace m with
      | nil => rfl
      | cons a l => rw [hd] at h; simp [List.isEmpty] at h
    rw [hm]
    rfl
  · exact List.rdropWhile_concat_pos isPySpace _ '\n' (by decide)

/-- Fence-cleaning a document wrapped in a ```json fence yields the stripped
document: the leading tag (7 characters) and the trailing fence are removed
and the surrounding newlines stripped. -/
theorem cleanContent_fenced (d : String) :
    cleanContent ("```json\n" ++ d ++ "\n```") = pyStrip d := by
  have hdata : ("```json\n" ++ d ++ "\n```").data
      = '`' :: '`' :: '`' :: 'j' :: 's' :: 'o' :: 'n' :: '\n' ::
          (d.data ++ ['\n', '`', '`', '`']) := rfl
  have hsplit : ("```json\n" ++ d ++ "\n```").data
      = ('`' :: '`' :: '`' :: 'j' :: 's' :: 'o' :: 'n' :: '\n' ::
          (d.data ++ ['\n', '`', '`'])) ++ ['`'] := by
    rw [hdata]
    simp
  have h0 : pyStrip ("```json\n" ++ d ++ "\n```") = "```json\n" ++ d ++ "\n```" := by
    have hl : lstripData ("```json\n" ++ d ++ "\n```").data
        = ("```json\n" ++ d ++ "\n```").data := by
      rw [hdata]
      exact List.dropWhile_cons_of_neg (by decide)
    have hr : rstripData ("```json\n" ++ d ++ "\n```").data
        = ("```json\n" ++ d ++ "\n```").data := by
      calc rstripData ("```json\n" ++ d ++ "\n```").data
          = rstripData (('`' :: '`' :: '`' :: 'j' :: 's' :: 'o' :: 'n' :: '\n' ::
              (d.data ++ ['\n', '`', '`'])) ++ ['`']) := by rw [← hsplit]
        _ = ('`' :: '`' :: '`' :: 'j' :: 's' :: 'o' :: 'n' :: '\n' ::
              (d.data ++ ['\n', '`', '`'])) ++ ['`'] :=
            List.rdropWhile_concat_neg isPySpace _ '`' (by decide)
        _ = ("```json\n" ++ d ++ "\n```").data := hsplit.symm
    show String.mk (rstripData (lstripData ("```json\n" ++ d ++ "\n```").data))
        = "```json\n" ++ d ++ "\n```"
    rw [hl, hr]
  have h1 : cleanStep1 ("```json\n" ++ d ++ "\n```")
      = ⟨'\n' :: (d.data ++ ['\n', '`', '`', '`'])⟩ := by
    unfold cleanStep1
    have hc : pyStartsWith ("```json\n" ++ d ++ "\n```") "```json" = true := by
      show List.isPrefixOf "```json".data ("```json\n" ++ d ++ "\n```").data = true
      rw [hdata]
      exact isPrefixOf_self_append "```json".data ('\n' :: (d.data ++ ['\n', '`', '`', '`']))
    rw [if_pos hc]
    show String.mk (("```json\n" ++ d ++ "\n```").data.drop 7) = _
    rw [hdata]
    rfl
  have h2 : cleanStep2 (⟨'\n' :: (d.data ++ ['\n', '`', '`', '`'])⟩ : String)
      = ⟨'\n' :: (d.data ++ ['\n', '`', '`', '`'])⟩ := by
    unfold cleanStep2
    have hc : pyStartsWith (⟨'\n' :: (d.data ++ ['\n', '`', '`', '`'])⟩ : String) "```"
        = false := rfl
    rw [if_neg (by simp [hc])]
  have h3 : cleanStep3 (⟨'\n' :: (d.data ++ ['\n', '`', '`', '`'])⟩ : String)
      = ⟨'\n' :: (d.data ++ ['\n'])⟩ := by
    unfold cleanStep3
    have hrev : ('\n' :: (d.data ++ ['\n', '`', '`', '`'])).reverse
        = '`' :: '`' :: '`' :: '\n' :: (d.data.reverse ++ ['\n']) := by
      simp
    have hc : pyEndsWith (⟨'\n' :: (d.data ++ ['\n', '`', '`', '`'])⟩ : String) "```"
        = true := by
      show List.isPrefixOf "```".data.reverse
        ('\n' :: (d.data ++ ['\n', '`', '`', '`'])).reverse = true
      rw [hrev]
      exact isPrefixOf_self_append "```".data.reverse ('\n' :: (d.data.reverse ++ ['\n']))
    rw [if_pos hc]
    refine congrArg String.mk ?_
    have hlen : (('\n' :: (d.data ++ ['\n', '`', '`', '`'])) : List Char).length - 3
        = d.data.length + 2 := by
      simp
    show List.take ((⟨'\n' :: (d.data ++ ['\n', '`', '`', '`'])⟩ : String).data.length - 3)
        ('\n' :: (d.data ++ ['\n', '`', '`', '`'])) = '\n' :: (d.data ++ ['\n'])
    rw [show (⟨'\n' :: (d.data ++ ['\n', '`', '`', '`'])⟩ : String).data.length - 3
        = d.data.length + 2 from hlen]
    show List.take ((d.data.length + 1) + 1) ('\n' :: (d.data ++ ['\n', '`', '`', '`']))
        = '\n' :: (d.data ++ ['\n'])
    rw [List.take_succ_cons, List.take_append]
    rfl
  unfold cleanContent
  rw [h0, h1, h2, h3]
  refine congrArg String.mk ?_
  show rstripData (lstripData ('\n' :: (d.data ++ ['\n']))) = rstripData (lstripData d.data)
  rw [show lstripData ('\n' :: (d.data ++ ['\n']))
      = lstripData (d.data ++ ['\n']) from List.dropWhile_cons_of_pos (by decide)]
  exact strip_snoc_newline d.data

/-- Fence-cleaning a document whose stripped form carries no fences is just
the strip. -/
theorem cleanContent_unfenced (d : String)
    (hj : pyStartsWith (pyStrip d) "```json" = false)
    (hb : pyStartsWith (pyStrip d) "```" = false)
    (he : pyEndsWith (pyStrip d) "```" = false) :
    cleanContent d = pyStrip d := by
  have e1 : cleanStep1 (pyStrip d) = pyStrip d := by
    unfold cleanStep1
    rw [if_neg (by simp [hj])]
  have e2 : cleanStep2 (pyStrip d) = pyStrip d := by
    unfold cleanStep2
    rw [if_neg (by simp [hb])]
  have e3 : cleanStep3 (pyStrip d) = pyStrip d := by
    unfold cleanStep3
    rw [if_neg (by simp [he])]
  unfold cleanContent
  rw [e1, e2, e3]
  exact pyStrip_idem d

/-- C9: `cleanAndParseJson` is total and never raises — on parse failure of
the cleaned text it returns null, on success the parsed value; and a JSON
document wrapped in a ```json fence parses to the same value as the same
document unfenced (for documents whose stripped form is not itself
fence-delimited). -/
theorem clean_and_parse_json_spec :
    (∀ {J : Type} (parse : String → Except Unit J) (content : String),
      parse (cleanContent content) = .error () →
      clean_and_parse_json parse content = none) ∧
    (∀ {J : Type} (parse : String → Except Unit J) (content : String) (v : J),
      parse (cleanContent content) = .ok v →
      clean_and_parse_json parse content = some v) ∧
    (∀ d : String,
      pyStartsWith (pyStrip d) "```json" = false →
      pyStartsWith (pyStrip d) "```" = false →
      pyEndsWith (pyStrip d) "```" = false →
      cleanContent ("```json\n" ++ d ++ "\n```") = cleanContent d) ∧
    (∀ {J : Type} (parse : String → Except Unit J) (d : String),
      pyStartsWith (pyStrip d) "```json" = false →
      pyStartsWith (pyStrip d) "```" = false →
      pyEndsWith (pyStrip d) "```" = false →
      clean_and_parse_json parse ("```json\n" ++ d ++ "\n```") =
        clean_and_parse_json parse d) := by
  have hfence : ∀ d : String,
      pyStartsWith (pyStrip d) "```json" = false →
      pyStartsWith (pyStrip d) "```" = false →
      pyEndsWith (pyStrip d) "```" = false →
      cleanContent ("```json\n" ++ d ++ "\n```") = cleanContent d := by
    intro d hj hb he
    rw [cleanContent_fenced d, cleanContent_unfenced d hj hb he]
  refine ⟨?_, ?_, hfence, ?_⟩
  · intro J parse content h
    unfold clean_and_parse_json
    rw [h]
  · intro J parse content v h
    unfold clean_and_parse_json
    rw [h]
  · intro J parse d hj hb he
    unfold clean_and_parse_json
    rw [hfence d hj hb he]

/-- C9 witness: the fenced and unfenced forms of a concrete document parse
identically, the parsed value comes through, and unparseable input gives
null. -/
theorem clean_and_parse_json_spec_witness :
    clean_and_parse_json parse_example ("```json\n" ++ "\x7b\"a\":1\x7d" ++ "\n```") =
      clean_and_parse_json parse_example "\x7b\"a\":1\x7d" ∧
    clean_and_parse_json parse_example "\x7b\"a\":1\x7d" = some 1 ∧
    clean_and_parse_json parse_example "not json" = none :=
  ⟨clean_and_parse_json_spec.2.2.2 parse_example "\x7b\"a\":1\x7d"
      (by decide) (by decide) (by decide),
   clean_and_parse_json_spec.2.1 parse_example "\x7b\"a\":1\x7d" 1 rfl,
   clean_and_parse_json_spec.1 parse_example "not json" rfl⟩

end CurioCloud
